import Mathlib

/-!
Shallow embedding of the configuration-ingestion core of `pyIB2d.py`
(IB2d Python frontend): the two-pass parameter extractor
`give_Me_input2d_Parameters` and the positional configuration builder
inside `main2d`, together with the CLI dispatch at the bottom of the file.

Python floating-point values are modelled as exact rationals (`ℚ`); the
numeric formats exercised here (plain decimal literals) are exact in both
worlds.  Python runtime failures (`UnboundLocalError`, `IndexError`,
`ValueError` from `float`, numpy parse errors) are modelled by `Option`
results, `none` meaning the Python code raises.
-/

attribute [local semireducible] Rat.add Rat.mul Rat.inv Rat.sub Rat.ofScientific

/-- `isPrefixList p l` is true when the character list `p` is an initial
segment of `l` (helper for modelling Python substring search). -/
def isPrefixList : List Char → List Char → Bool
  | [], _ => true
  | _ :: _, [] => false
  | a :: as, b :: bs => a == b && isPrefixList as bs

/-- First index at which the pattern occurs as a contiguous sublist,
`none` when it never occurs.  Models the search underlying Python's
`str.find` and the `in` containment test. -/
def findIdxSub (pat : List Char) : List Char → Option Nat
  | [] => if pat.isEmpty then some 0 else none
  | c :: rest =>
    if isPrefixList pat (c :: rest) then some 0
    else (findIdxSub pat rest).map (· + 1)

/-- Python `s.find(pat)`: index of the first occurrence, `-1` if absent. -/
def pyFind (s pat : String) : ℤ :=
  match findIdxSub pat.toList s.toList with
  | some n => (n : ℤ)
  | none => -1

/-- Python `pat in s`: substring containment. -/
def containsSub (s pat : String) : Bool :=
  (findIdxSub pat.toList s.toList).isSome

/-- Source line 76-77: a line is accepted by the string-reference pass iff
`'string_name' in line and line.find('string_name') < line.find('%')`. -/
def qualifies (line : String) : Bool :=
  containsSub line "string_name" &&
    decide (pyFind line "string_name" < pyFind line "%")

/-- Python `line.split()`: split on whitespace runs, dropping empty words
(accumulator-based; `acc` holds the current word reversed). -/
def splitWsAux : List Char → List Char → List (List Char)
  | [], acc => if acc.isEmpty then [] else [acc.reverse]
  | c :: rest, acc =>
    if c.isWhitespace then
      if acc.isEmpty then splitWsAux rest []
      else acc.reverse :: splitWsAux rest []
    else splitWsAux rest (c :: acc)

/-- Python `line.split()` on a string. -/
def pySplitWs (s : String) : List (List Char) :=
  splitWsAux s.toList []

/-- Source lines 81-84: scan the word list for the first word equal to
`=` and return the word following it; `none` models the `IndexError`
when `=` is the last word, or the fall-through (unbound `struct_name`)
when no word equals `=`. -/
def takeAfterEq : List (List Char) → Option (List Char)
  | [] => none
  | w :: ws => if w = ['='] then ws.head? else takeAfterEq ws

/-- `os.path.join` (posix) for the two-argument case used at source
lines 64 and 83. -/
def pathJoin (dir : String) (frag : List Char) : String :=
  let d := dir.toList
  if frag.head? = some '/' then String.mk frag
  else if d.isEmpty || d.getLast? == some '/' then String.mk (d ++ frag)
  else String.mk (d ++ '/' :: frag)

/-- Source lines 73-85: the string-reference pass.  Walks the lines in
order; on the FIRST line accepted by `qualifies` it extracts the word
after `=` and joins it to the directory, then stops (the `break` at line
85 runs whether or not `struct_name` was assigned, so a qualifying line
without `=` leaves the name unbound: modelled by `none`).  Exhausting the
file with no qualifying line also leaves `struct_name` unbound (`none`,
the Python `UnboundLocalError` at the `return`). -/
def extract_struct_name (dir : String) : List String → Option String
  | [] => none
  | line :: rest =>
    if qualifies line then (takeAfterEq (pySplitWs line)).map (pathJoin dir)
    else extract_struct_name dir rest

/-- Python `str.strip()` restricted to whitespace: drop leading and
trailing whitespace characters. -/
def trimChars (cs : List Char) : List Char :=
  ((cs.dropWhile Char.isWhitespace).reverse.dropWhile Char.isWhitespace).reverse

/-- The `np.loadtxt` comment handling of source lines 68-70
(`comments=('%','string_name')`): truncate the line at the earliest
occurrence of either comment token. -/
def commentCut (cs : List Char) : List Char :=
  let i1 := (findIdxSub ['%'] cs).getD cs.length
  let i2 := (findIdxSub "string_name".toList cs).getD cs.length
  cs.take (min i1 i2)

/-- Value of a decimal digit string (most significant first); `0` on the
empty list.  Validity of the digits is checked by the callers. -/
def natOfDigits : List Char → ℕ :=
  List.foldl (fun a c => a * 10 + (c.toNat - 48)) 0

/-- Python `float(s)` on an already-stripped token, restricted to the
plain decimal forms `[+-]digits`, `[+-]digits.digits`, `[+-]digits.`,
`[+-].digits` (the forms appearing in `input2d` files; exponents and the
special words are not modelled).  `none` models `ValueError`, which
`np.loadtxt` turns into a fatal parse error. -/
def parseFloatQ (cs : List Char) : Option ℚ :=
  let sc : ℚ × List Char :=
    match cs with
    | '-' :: rest => (-1, rest)
    | '+' :: rest => (1, rest)
    | _ => (1, cs)
  let ip := sc.2.takeWhile Char.isDigit
  let rest := sc.2.dropWhile Char.isDigit
  match rest with
  | [] => if ip.isEmpty then none else some (sc.1 * natOfDigits ip)
  | '.' :: fp =>
    if fp.all Char.isDigit && !(ip.isEmpty && fp.isEmpty) then
      some (sc.1 * ((natOfDigits ip : ℚ) + (natOfDigits fp : ℚ) / 10 ^ fp.length))
    else none
  | _ => none

/-- Split at every `=` character, keeping empty fields (the
`delimiter='='` splitting of `np.loadtxt`; `acc` holds the current field
reversed). -/
def splitOnEqAux : List Char → List Char → List (List Char)
  | [], acc => [acc.reverse]
  | c :: rest, acc =>
    if c = '=' then acc.reverse :: splitOnEqAux rest []
    else splitOnEqAux rest (c :: acc)

/-- One surviving (non-comment, non-empty) line of the numeric pass: the
two-field dtype of source lines 68-70 requires exactly two `=`-separated
fields; the first (the name) is ignored for positioning, the second must
parse as a float. -/
def parseParamLine (cs : List Char) : Option ℚ :=
  match splitOnEqAux cs [] with
  | [_, v] => parseFloatQ (trimChars v)
  | _ => none

/-- The numeric pass of source lines 68-70 (`np.loadtxt` with
`comments=('%','string_name')`, `delimiter='='`): per line, truncate at
the first comment token, strip, skip if empty, otherwise parse
`name = value`; values accumulate in file order.  `none` models a numpy
parse error on any surviving line. -/
def loadParams : List String → Option (List ℚ)
  | [] => some []
  | line :: rest =>
    let t := trimChars (commentCut line.toList)
    if t.isEmpty then loadParams rest
    else
      match parseParamLine t, loadParams rest with
      | some v, some vs => some (v :: vs)
      | _, _ => none

/-- Source lines 57-87, `give_Me_input2d_Parameters`: run the numeric
pass and the string-reference pass over the same lines and return the
pair `(params, struct_name)`.  The file at `os.path.join(fpath[0],
fpath[1])` is given here by its directory `dir` and its list of lines;
`none` models any raised exception. -/
def give_Me_input2d_Parameters (dir : String) (lines : List String) :
    Option (List ℚ × String) :=
  match loadParams lines, extract_struct_name dir lines with
  | some ps, some sn => some (ps, sn)
  | _, _ => none

/-- Python `int(x)` on a float: truncation toward zero, on the rational
model. -/
def pyInt (q : ℚ) : ℤ :=
  if 0 ≤ q then ⌊q⌋ else ⌈q⌉

/-- Python truthiness of an int (`if flag:`): nonzero test. -/
def pyTruthy (n : ℤ) : Bool :=
  n != 0

/-- The `grid_Info` dictionary of source lines 108-128.  Fields wrapped
in `int(...)` in the source are `ℤ`, the rest stay `ℚ`. -/
structure GridInfo where
  Nx : ℤ
  Ny : ℤ
  Lx : ℚ
  Ly : ℚ
  dx : ℚ
  dy : ℚ
  supp : ℚ
  pDump : ℚ
  pMatplotlib : ℤ
  lagPlot : ℤ
  velPlot : ℤ
  vortPlot : ℤ
  uMagPlot : ℤ
  pressPlot : ℤ
deriving DecidableEq

/-- The `model_Info` dictionary of source lines 132-156. -/
structure ModelInfo where
  springs : ℤ
  update_springs : ℤ
  target_pts : ℤ
  update_target_pts : ℤ
  beams : ℤ
  update_beams : ℤ
  muscles : ℤ
  hill_3_muscles : ℤ
  arb_ext_force : ℤ
  tracers : ℤ
  mass : ℤ
  gravity : ℤ
  xG : ℚ
  yG : ℚ
  porous : ℤ
  concentration : ℤ
  electrophysiology : ℤ
  damped_springs : ℤ
  update_D_Springs : ℤ
deriving DecidableEq

/-- Everything `main2d` (source lines 89-163) computes from the
parameter vector and hands to the solver: the scalars `mu`, `rho`,
`T_final`, `dt` and the two dictionaries. -/
structure SimulationConfig where
  mu : ℚ
  rho : ℚ
  T_final : ℚ
  dt : ℚ
  grid_Info : GridInfo
  model_Info : ModelInfo
deriving DecidableEq

/-- The parameter-vector half of `main2d` (source lines 100-156): the
fixed positional schema mapping `params[0] .. params[34]` into the
configuration.  The indices accessed are exactly `0..34`, so Python
raises `IndexError` (modelled by `none`) precisely when the vector has
fewer than 35 entries; entries beyond index 34 are never read. -/
def main2dConfig (ps : List ℚ) : Option SimulationConfig :=
  if 35 ≤ ps.length then
    some
      { mu := ps.getD 0 0
        rho := ps.getD 1 0
        T_final := ps.getD 2 0
        dt := ps.getD 3 0
        grid_Info :=
          { Nx := pyInt (ps.getD 4 0)
            Ny := pyInt (ps.getD 5 0)
            Lx := ps.getD 6 0
            Ly := ps.getD 7 0
            dx := ps.getD 6 0 / ps.getD 4 0
            dy := ps.getD 7 0 / ps.getD 5 0
            supp := ps.getD 8 0
            pDump := ps.getD 28 0
            pMatplotlib := pyInt (ps.getD 29 0)
            lagPlot := pyInt (ps.getD 30 0)
            velPlot := pyInt (ps.getD 31 0)
            vortPlot := pyInt (ps.getD 32 0)
            uMagPlot := pyInt (ps.getD 33 0)
            pressPlot := pyInt (ps.getD 34 0) }
        model_Info :=
          { springs := pyInt (ps.getD 9 0)
            update_springs := pyInt (ps.getD 10 0)
            target_pts := pyInt (ps.getD 11 0)
            update_target_pts := pyInt (ps.getD 12 0)
            beams := pyInt (ps.getD 13 0)
            update_beams := pyInt (ps.getD 14 0)
            muscles := pyInt (ps.getD 15 0)
            hill_3_muscles := pyInt (ps.getD 16 0)
            arb_ext_force := pyInt (ps.getD 17 0)
            tracers := pyInt (ps.getD 18 0)
            mass := pyInt (ps.getD 19 0)
            gravity := pyInt (ps.getD 20 0)
            xG := ps.getD 21 0
            yG := ps.getD 22 0
            porous := pyInt (ps.getD 23 0)
            concentration := pyInt (ps.getD 24 0)
            electrophysiology := pyInt (ps.getD 25 0)
            damped_springs := pyInt (ps.getD 26 0)
            update_D_Springs := pyInt (ps.getD 27 0) } }
  else none

/-- Whole `main2d` run on a configuration file: extract, then build, and
pair the structure reference with the configuration handed to
`Driver.main`. -/
def main2d (dir : String) (lines : List String) :
    Option (String × SimulationConfig) :=
  (give_Me_input2d_Parameters dir lines).bind
    (fun pr => (main2dConfig pr.1).map (fun c => (pr.2, c)))

/-- The boolean-like slots of the positional schema: the
`model_Info` feature flags (source lines 133-156) and the plot toggles
(source lines 118-127).  Grid counts (slots 4, 5) and the float slots
are not flags. -/
def flagSlots : List ℕ :=
  [9, 10, 11, 12, 13, 14, 15, 16, 17, 18, 19, 20, 23, 24, 25, 26, 27,
   29, 30, 31, 32, 33, 34]

/-- The stored flag a given boolean-like slot feeds, read back from the
constructed configuration (the slot-to-field correspondence of source
lines 118-127 and 133-156); `none` on a non-flag slot. -/
def flagValue (c : SimulationConfig) : ℕ → Option ℤ
  | 9 => some c.model_Info.springs
  | 10 => some c.model_Info.update_springs
  | 11 => some c.model_Info.target_pts
  | 12 => some c.model_Info.update_target_pts
  | 13 => some c.model_Info.beams
  | 14 => some c.model_Info.update_beams
  | 15 => some c.model_Info.muscles
  | 16 => some c.model_Info.hill_3_muscles
  | 17 => some c.model_Info.arb_ext_force
  | 18 => some c.model_Info.tracers
  | 19 => some c.model_Info.mass
  | 20 => some c.model_Info.gravity
  | 23 => some c.model_Info.porous
  | 24 => some c.model_Info.concentration
  | 25 => some c.model_Info.electrophysiology
  | 26 => some c.model_Info.damped_springs
  | 27 => some c.model_Info.update_D_Springs
  | 29 => some c.grid_Info.pMatplotlib
  | 30 => some c.grid_Info.lagPlot
  | 31 => some c.grid_Info.velPlot
  | 32 => some c.grid_Info.vortPlot
  | 33 => some c.grid_Info.uMagPlot
  | 34 => some c.grid_Info.pressPlot
  | _ => none

/-- `flagValue` through the fallible builder. -/
def cfgFlag (o : Option SimulationConfig) (i : ℕ) : Option ℤ :=
  o.bind (fun c => flagValue c i)

/-- The slots the builder converts with `int(...)`: grid counts, model
feature flags and plot toggles. -/
def intSlots : List ℕ :=
  [4, 5, 9, 10, 11, 12, 13, 14, 15, 16, 17, 18, 19, 20, 23, 24, 25, 26,
   27, 29, 30, 31, 32, 33, 34]

/-- Serialize the numeric fields of a configuration back into a flat
vector following the fixed positional schema (inverse of the
slot-to-field mapping of source lines 100-156; the derived `dx`, `dy`
are not stored in the vector). -/
def serializeConfig (c : SimulationConfig) : List ℚ :=
  [c.mu, c.rho, c.T_final, c.dt,
   (c.grid_Info.Nx : ℚ), (c.grid_Info.Ny : ℚ),
   c.grid_Info.Lx, c.grid_Info.Ly, c.grid_Info.supp,
   (c.model_Info.springs : ℚ), (c.model_Info.update_springs : ℚ),
   (c.model_Info.target_pts : ℚ), (c.model_Info.update_target_pts : ℚ),
   (c.model_Info.beams : ℚ), (c.model_Info.update_beams : ℚ),
   (c.model_Info.muscles : ℚ), (c.model_Info.hill_3_muscles : ℚ),
   (c.model_Info.arb_ext_force : ℚ), (c.model_Info.tracers : ℚ),
   (c.model_Info.mass : ℚ), (c.model_Info.gravity : ℚ),
   c.model_Info.xG, c.model_Info.yG,
   (c.model_Info.porous : ℚ), (c.model_Info.concentration : ℚ),
   (c.model_Info.electrophysiology : ℚ), (c.model_Info.damped_springs : ℚ),
   (c.model_Info.update_D_Springs : ℚ),
   c.grid_Info.pDump,
   (c.grid_Info.pMatplotlib : ℚ), (c.grid_Info.lagPlot : ℚ),
   (c.grid_Info.velPlot : ℚ), (c.grid_Info.vortPlot : ℚ),
   (c.grid_Info.uMagPlot : ℚ), (c.grid_Info.pressPlot : ℚ)]

/-- A parameter vector written by a well-formed input file: exact schema
length, and every `int(...)`-converted slot holds a whole number (the
spec's invariant that counts and flags are integers in the file). -/
def wellFormedVec (ps : List ℚ) : Prop :=
  ps.length = 35 ∧ ∀ i ∈ intSlots, ((pyInt (ps.getD i 0) : ℤ) : ℚ) = ps.getD i 0

/-- Outcome of the CLI dispatch at source lines 166-181: either
`main2d` is invoked on a chosen input path, or the usage message is
printed and the process exits with the given status code. -/
inductive CliOutcome where
  | run (inname : String)
  | usageExit (msg : String) (code : ℕ)
deriving DecidableEq

/-- The message printed at source line 178. -/
def usageMsg : String :=
  "Invalid use of flags. Use the -h option for help."

/-- Python truthiness of `args.path` (`None` and the empty string are
falsy). -/
def truthyOptStr : Option String → Bool
  | none => false
  | some s => s != ""

/-- Source lines 173-181: `if args.path: ... elif args.fdiag: ... else:
print(usage); sys.exit()`.  `dialog` is the name returned by the file
dialog in the `fdiag` branch.  `sys.exit()` with no argument terminates
the process with exit status 0. -/
def cliMain (path : Option String) (fdiag : Bool) (dialog : String) :
    CliOutcome :=
  if truthyOptStr path then CliOutcome.run (path.getD "")
  else if fdiag then CliOutcome.run dialog
  else CliOutcome.usageExit usageMsg 0

/-- Witness vector for the spatial-step claim: grid slots `Nx = 5`,
`Ny = 4`, `Lx = 10`, `Ly = 8`. -/
def c6Vec : List ℚ :=
  [1, 1, 1, 1, 5, 4, 10, 8, 1] ++ List.replicate 26 0

/-- Witness vector for the flag-truthiness claim: slots 9, 10, 11 hold
`0.0`, `1.0`, `2.0`. -/
def c7Vec : List ℚ :=
  List.replicate 9 0 ++ [0, 1, 2] ++ List.replicate 23 0

/-- Witness vector for the fractional-flag claim: slot 9 holds `0.5`. -/
def c10Vec : List ℚ :=
  List.replicate 9 0 ++ (1 / 2 : ℚ) :: List.replicate 25 0

/-- A well-formed 35-slot parameter vector (every `int(...)`-converted
slot holds a whole number). -/
def c8Vec : List ℚ :=
  [1/100, 1, 5, 1/1000, 64, 32, 1, 1, 4, 1, 0, 1, 0, 1, 0, 0, 0, 0, 0,
   0, 1, 0, -981/100, 0, 0, 0, 0, 0, 50, 1, 0, 0, 0, 0, 1]

/-- The stored flag of every boolean-like slot is the `int(...)`
truncation of the slot's source value (slot-by-slot reading of source
lines 118-127 and 133-156). -/
theorem cfgFlag_eq_pyInt (ps : List ℚ) (h : 35 ≤ ps.length) (i : ℕ)
    (hi : i ∈ flagSlots) :
    cfgFlag (main2dConfig ps) i = some (pyInt (ps.getD i 0)) := by
  fin_cases hi <;> simp [cfgFlag, main2dConfig, flagValue, h]

/-- Claim C1: the spec says a line containing `string_name` with no
comment marker at all always qualifies as the reference line.  The code
disagrees: `line.find('%')` is `-1` on such a line, the test
`find('string_name') < find('%')` is false, the line is rejected, and
`struct_name` is left unbound (Python `UnboundLocalError`).  This
theorem evaluates the code on such a line. -/
theorem c1_keyword_without_marker_rejected :
    containsSub "string_name = beam.vertex" "string_name" = true ∧
    pyFind "string_name = beam.vertex" "%" = -1 ∧
    qualifies "string_name = beam.vertex" = false ∧
    extract_struct_name "/sims/run1" ["string_name = beam.vertex"] = none := by
  decide

/-- Claim C2: on the spec's end-to-end example file the numeric pass
does produce `mu = 0.01`, `rho = 1.0`, but the reference line
`string_name = beam.vertex` carries no comment marker, so the
string-reference pass rejects it and extraction crashes (`none`) instead
of returning `/sims/run1/beam.vertex`. -/
theorem c2_end_to_end_example_crashes :
    loadParams ["mu = 0.01", "rho = 1.0",
      "% comment string_name = ignored.vertex", "string_name = beam.vertex"] =
      some [1 / 100, 1] ∧
    extract_struct_name "/sims/run1" ["mu = 0.01", "rho = 1.0",
      "% comment string_name = ignored.vertex", "string_name = beam.vertex"] =
      none ∧
    give_Me_input2d_Parameters "/sims/run1" ["mu = 0.01", "rho = 1.0",
      "% comment string_name = ignored.vertex", "string_name = beam.vertex"] =
      none := by
  decide

/-- Claim C3: when on every line containing `string_name` the keyword
sits after a comment marker (first marker occurrence before the first
keyword occurrence), no line qualifies and the extractor fails, yielding
no structure reference. -/
theorem c3_keyword_only_in_comments_fails (dir : String) (lines : List String)
    (h : ∀ l ∈ lines, containsSub l "string_name" = true →
      0 ≤ pyFind l "%" ∧ pyFind l "%" < pyFind l "string_name") :
    extract_struct_name dir lines = none := by
  induction lines with
  | nil => rfl
  | cons l ls ih =>
    have hq : qualifies l = false := by
      unfold qualifies
      cases hc : containsSub l "string_name" with
      | false => simp
      | true =>
        obtain ⟨h1, h2⟩ := h l (List.mem_cons_self l ls) hc
        simp only [Bool.true_and, decide_eq_false_iff_not, not_lt]
        omega
    have ih' := ih (fun x hx => h x (List.mem_cons_of_mem _ hx))
    simp [extract_struct_name, hq, ih']

/-- Witness for C3: a file whose only `string_name` occurrence sits
inside a comment yields no structure reference. -/
theorem c3_witness :
    extract_struct_name "/sims/run1"
      ["mu = 0.01", "% string_name = a.vertex"] = none :=
  c3_keyword_only_in_comments_fails "/sims/run1"
    ["mu = 0.01", "% string_name = a.vertex"] (by decide)

/-- Claim C4: a line beginning with the comment marker `%` contributes
no value to the parameter vector, wherever it sits in the file and
whatever it contains. -/
theorem c4_comment_line_contributes_nothing (pre : List String) (l : String)
    (post : List String) (h : l.toList.head? = some '%') :
    loadParams (pre ++ l :: post) = loadParams (pre ++ post) := by
  have hskip : trimChars (commentCut l.toList) = [] := by
    cases hc : l.toList with
    | nil => rw [hc] at h; simp at h
    | cons c rest =>
      rw [hc] at h
      simp only [List.head?_cons, Option.some.injEq] at h
      subst h
      simp [commentCut, findIdxSub, isPrefixList, trimChars]
  have hskip2 : trimChars (commentCut l.data) = [] := hskip
  induction pre with
  | nil => simp [loadParams, hskip, hskip2]
  | cons p ps ih =>
    simp only [List.cons_append, loadParams, List.append_eq]
    rw [ih]

/-- Witness for C4: a comment line containing the assignment token
`name = 3.0` is skipped; the surrounding numeric lines still parse. -/
theorem c4_witness :
    loadParams ["mu = 1.0", "% name = 3.0", "rho = 2.0"] =
      loadParams ["mu = 1.0", "rho = 2.0"] ∧
    loadParams ["mu = 1.0", "rho = 2.0"] = some [1, 2] :=
  ⟨c4_comment_line_contributes_nothing ["mu = 1.0"] "% name = 3.0"
      ["rho = 2.0"] (by decide),
   by decide⟩

/-- Claim C5: construction from a vector shorter than the 35-slot schema
fails (`IndexError`, no configuration at all); a vector of length at
least 35 succeeds, and entries past slot 34 are ignored (the result
coincides with the result on the first 35 entries). -/
theorem c5_short_vector_fails_extras_ignored (ps : List ℚ) :
    (ps.length < 35 → main2dConfig ps = none) ∧
    (35 ≤ ps.length →
      (main2dConfig ps).isSome = true ∧
      main2dConfig ps = main2dConfig (ps.take 35)) := by
  constructor
  · intro h
    simp [main2dConfig, show ¬ 35 ≤ ps.length by omega]
  · intro h
    have hgd : ∀ i < 35, (ps.take 35).getD i 0 = ps.getD i 0 := by
      intro i hi
      simp [List.getD_eq_getElem?_getD, List.getElem?_take, hi]
    have hlen : 35 ≤ (ps.take 35).length := by
      simp [List.length_take]
      omega
    constructor
    · simp [main2dConfig, h]
    · simp only [main2dConfig, if_pos h, if_pos hlen,
        hgd 0 (by omega), hgd 1 (by omega), hgd 2 (by omega), hgd 3 (by omega),
        hgd 4 (by omega), hgd 5 (by omega), hgd 6 (by omega), hgd 7 (by omega),
        hgd 8 (by omega), hgd 9 (by omega), hgd 10 (by omega), hgd 11 (by omega),
        hgd 12 (by omega), hgd 13 (by omega), hgd 14 (by omega), hgd 15 (by omega),
        hgd 16 (by omega), hgd 17 (by omega), hgd 18 (by omega), hgd 19 (by omega),
        hgd 20 (by omega), hgd 21 (by omega), hgd 22 (by omega), hgd 23 (by omega),
        hgd 24 (by omega), hgd 25 (by omega), hgd 26 (by omega), hgd 27 (by omega),
        hgd 28 (by omega), hgd 29 (by omega), hgd 30 (by omega), hgd 31 (by omega),
        hgd 32 (by omega), hgd 33 (by omega), hgd 34 (by omega)]

/-- Witness for C5: a 10-entry vector yields no configuration; a
36-entry vector yields one. -/
theorem c5_witness :
    main2dConfig (List.replicate 10 (1 : ℚ)) = none ∧
    (main2dConfig (List.replicate 36 (1 : ℚ))).isSome = true :=
  ⟨(c5_short_vector_fails_extras_ignored (List.replicate 10 (1 : ℚ))).1 (by decide),
   ((c5_short_vector_fails_extras_ignored (List.replicate 36 (1 : ℚ))).2 (by decide)).1⟩

/-- Claim C6: the derived spatial steps are computed at construction
time as the length slot divided by the count slot of the same axis
(`dx = params[6]/params[4]`, `dy = params[7]/params[5]`). -/
theorem c6_spatial_step_is_length_div_count (ps : List ℚ)
    (h : 35 ≤ ps.length) :
    (main2dConfig ps).map (fun c => c.grid_Info.dx) =
      some (ps.getD 6 0 / ps.getD 4 0) ∧
    (main2dConfig ps).map (fun c => c.grid_Info.dy) =
      some (ps.getD 7 0 / ps.getD 5 0) := by
  constructor <;> simp [main2dConfig, h]

/-- Witness for C6: with axis length `10.0` and axis count `5` the
derived step is `2.0`. -/
theorem c6_witness :
    (main2dConfig c6Vec).map (fun c => c.grid_Info.dx) = some 2 := by
  have h := (c6_spatial_step_is_length_div_count c6Vec (by decide)).1
  rw [h]
  decide

/-- Claim C7: at every boolean-like slot, source value `0.0` yields a
stored flag that is falsy, and `1.0` and `2.0` each yield a truthy flag
(truthiness is the nonzero test `pyTruthy` on the `int(...)`-converted
value). -/
theorem c7_flag_truthiness (ps : List ℚ) (h : 35 ≤ ps.length) (i : ℕ)
    (hi : i ∈ flagSlots) :
    (ps.getD i 0 = 0 →
      cfgFlag (main2dConfig ps) i = some 0 ∧ pyTruthy 0 = false) ∧
    (ps.getD i 0 = 1 →
      cfgFlag (main2dConfig ps) i = some 1 ∧ pyTruthy 1 = true) ∧
    (ps.getD i 0 = 2 →
      cfgFlag (main2dConfig ps) i = some 2 ∧ pyTruthy 2 = true) := by
  have key := cfgFlag_eq_pyInt ps h i hi
  refine ⟨fun hv => ⟨?_, by decide⟩, fun hv => ⟨?_, by decide⟩,
    fun hv => ⟨?_, by decide⟩⟩ <;> rw [key, hv] <;> decide

/-- Witness for C7: slots 9, 10, 11 of `c7Vec` hold `0.0`, `1.0`, `2.0`
and produce flags `0` (falsy), `1` (truthy), `2` (truthy). -/
theorem c7_witness :
    (cfgFlag (main2dConfig c7Vec) 9 = some 0 ∧ pyTruthy 0 = false) ∧
    (cfgFlag (main2dConfig c7Vec) 10 = some 1 ∧ pyTruthy 1 = true) ∧
    (cfgFlag (main2dConfig c7Vec) 11 = some 2 ∧ pyTruthy 2 = true) :=
  ⟨(c7_flag_truthiness c7Vec (by decide) 9 (by decide)).1 (by decide),
   (c7_flag_truthiness c7Vec (by decide) 10 (by decide)).2.1 (by decide),
   (c7_flag_truthiness c7Vec (by decide) 11 (by decide)).2.2 (by decide)⟩

/-- Claim C10: a boolean-like slot whose source value lies strictly
between 0 and 1 stores `int(v) = 0` and is therefore falsy even though
the source value is nonzero. -/
theorem c10_fractional_flag_truncates_to_false (ps : List ℚ)
    (h : 35 ≤ ps.length) (i : ℕ) (hi : i ∈ flagSlots)
    (h0 : 0 < ps.getD i 0) (h1 : ps.getD i 0 < 1) :
    cfgFlag (main2dConfig ps) i = some 0 ∧ ps.getD i 0 ≠ 0 ∧
      pyTruthy 0 = false := by
  have key := cfgFlag_eq_pyInt ps h i hi
  have hz : pyInt (ps.getD i 0) = 0 := by
    rw [pyInt, if_pos h0.le]
    exact Int.floor_eq_zero_iff.mpr ⟨h0.le, h1⟩
  rw [key, hz]
  exact ⟨rfl, ne_of_gt h0, rfl⟩

/-- Witness for C10: slot 9 of `c10Vec` holds `0.5`; the stored flag is
`0` and falsy although the source value is nonzero. -/
theorem c10_witness :
    cfgFlag (main2dConfig c10Vec) 9 = some 0 ∧ c10Vec.getD 9 0 ≠ 0 ∧
      pyTruthy 0 = false :=
  c10_fractional_flag_truncates_to_false c10Vec (by decide) 9 (by decide)
    (by decide) (by decide)

/-- Claim C8: for a well-formed parameter vector (exact 35-slot schema
length, whole numbers in every `int(...)`-converted slot), serializing
the numeric fields of the constructed configuration back through the
fixed positional schema yields the original vector. -/
theorem c8_positional_round_trip (ps : List ℚ) (h : wellFormedVec ps) :
    (main2dConfig ps).map serializeConfig = some ps := by
  obtain ⟨hlen, hint⟩ := h
  have h35 : 35 ≤ ps.length := by omega
  have hrange : (List.range 35).map (fun i => ps.getD i 0) = ps := by
    apply List.ext_getElem
    · simp [hlen]
    · intro i h1 h2
      have h2' : i < ps.length := by simp at h1; omega
      simp [List.getElem_map, List.getElem_range,
        List.getD_eq_getElem?_getD, List.getElem?_eq_getElem, h2']
  unfold main2dConfig
  rw [if_pos h35]
  simp only [Option.map_some', serializeConfig, Option.some.injEq]
  rw [hint 4 (by decide), hint 5 (by decide), hint 9 (by decide),
    hint 10 (by decide), hint 11 (by decide), hint 12 (by decide),
    hint 13 (by decide), hint 14 (by decide), hint 15 (by decide),
    hint 16 (by decide), hint 17 (by decide), hint 18 (by decide),
    hint 19 (by decide), hint 20 (by decide), hint 23 (by decide),
    hint 24 (by decide), hint 25 (by decide), hint 26 (by decide),
    hint 27 (by decide), hint 29 (by decide), hint 30 (by decide),
    hint 31 (by decide), hint 32 (by decide), hint 33 (by decide),
    hint 34 (by decide)]
  exact hrange

/-- Witness for C8: the round-trip on the concrete well-formed vector
`c8Vec`. -/
theorem c8_witness :
    (main2dConfig c8Vec).map serializeConfig = some c8Vec :=
  c8_positional_round_trip c8Vec ⟨by decide, by decide⟩

/-- The property Claim C9 asserts about the no-arguments outcome: a
usage exit with a NONZERO status code. -/
def exitsNonzero (o : CliOutcome) : Prop :=
  ∃ m c, o = CliOutcome.usageExit m c ∧ c ≠ 0

/-- Counterexample to Claim C9: with neither flag supplied the CLI does
print the usage message and stops without running `main2d`, but
`sys.exit()` carries no argument, so the exit status is 0, not nonzero. -/
theorem c9_counterexample :
    cliMain none false "sel.txt" = CliOutcome.usageExit usageMsg 0 ∧
      ¬ exitsNonzero (cliMain none false "sel.txt") := by
  refine ⟨by decide, ?_⟩
  rintro ⟨m, c, he, hc⟩
  have h0 : cliMain none false "sel.txt" = CliOutcome.usageExit usageMsg 0 := by
    decide
  rw [h0] at he
  cases he
  exact hc rfl

/-- Claim C9 as amended: when the path argument is falsy (absent or
empty) and the file-dialog flag is not set, the CLI prints the usage
message and exits with status 0 (Python `sys.exit()` with no argument),
without invoking the parser or the solver. -/
theorem c9_amended_usage_exit_zero (path : Option String) (fdiag : Bool)
    (dialog : String) (hp : truthyOptStr path = false)
    (hf : fdiag = false) :
    cliMain path fdiag dialog = CliOutcome.usageExit usageMsg 0 := by
  simp [cliMain, hp, hf]

/-- Witness for the amended C9: an empty-string path argument with the
dialog flag unset leads to the zero-status usage exit. -/
theorem c9_witness :
    cliMain (some "") false "dialog.txt" = CliOutcome.usageExit usageMsg 0 :=
  c9_amended_usage_exit_zero (some "") false "dialog.txt" (by decide) rfl
